import Mathlib

/-!
# Verification of the namespace-isolation launcher (`src/lxc/tools/lxc_unshare.c`)

This file gives a shallow embedding of the launcher's core: the parsed
request and its validation, the user-lookup helper, the single-mount helper
and default filesystem setup, the guest bootstrap routine `do_start`, the
parent-side orchestration in `main`, and the eventfd synchronization between
parent and child.  Results of operating-system calls (caps initialisation,
namespace-string translation, `eventfd`, `lxc_clone`, `umount`/`mount`,
`sethostname`, `setuid`, `read`/`write` on the eventfd, the guest's eventual
exit status) are supplied as explicit oracle values in `World`/`ChildWorld`
structures, and the embedded functions reproduce the source's control flow
over those values.
-/

namespace LxcUnshare

/-- The kernel namespace flag set carried in `int flags`; one field per flag
that the tool can request via `-s` (MOUNT, PID, UTSNAME, IPC, USER,
NETWORK).  The source only ever tests individual bits (`flags & CLONE_*`),
so a record of booleans is a faithful rendering of the bitset. -/
structure Flags where
  mount : Bool
  pid : Bool
  uts : Bool
  ipc : Bool
  user : Bool
  network : Bool
deriving DecidableEq

/-- The parsed command line as `main` holds it after the `getopt` loop:
the target command and arguments (`argv[optind..]`), the namespace flags
filled from the `-s` string, whether `-u` was given (`start_arg.setuid`)
together with the resolved uid, the optional `-H` hostname, the `-i`
interface names, the `-M` default-mounts flag and the `-d` daemonize flag. -/
structure Request where
  args : List String
  flags : Flags
  setuid : Bool
  uid : Nat
  hostname : Option String
  ifaces : List String
  defaultMounts : Bool
  daemonize : Bool
deriving DecidableEq

/-! ## User lookup (`lookup_user`, lines 86-138) -/

/-- One record of the system password database. -/
structure PwEntry where
  pw_name : String
  pw_uid : Nat
deriving DecidableEq

/-- `getpwnam_r` over an explicit database: the first entry with the given
login name, if any. -/
def getpwnam_r (db : List PwEntry) (name : String) : Option PwEntry :=
  db.find? (fun e => e.pw_name = name)

/-- `getpwuid_r` over an explicit database: the first entry with the given
uid, if any. -/
def getpwuid_r (db : List PwEntry) (uid : Nat) : Option PwEntry :=
  db.find? (fun e => e.pw_uid = uid)

/-- Value of a decimal digit string. -/
def digitsVal (cs : List Char) : Nat :=
  cs.foldl (fun a c => a * 10 + (c.toNat - 48)) 0

/-- `sscanf(optarg, "%u", uid)` for a digit-initial token: reads the
leading run of decimal digits and converts it, reducing modulo `2^32`
because `uid_t` is a 32-bit unsigned integer; yields `none` (conversion
count 0) when the token does not start with a digit.  (Sign and leading
whitespace handling of `%u` is outside the tokens this development
needs.) -/
def scanfU (s : String) : Option Nat :=
  let ds := s.toList.takeWhile Char.isDigit
  if ds = [] then none else some (digitsVal ds % 2 ^ 32)

/-- `sscanf(optarg, "%s", name)`: the first whitespace-delimited word of
the token, as a character list; empty when the token is all whitespace
(conversion fails). -/
def firstWord (s : String) : List Char :=
  (s.toList.dropWhile Char.isWhitespace).takeWhile (fun c => ¬ c.isWhitespace)

/-- `lookup_user` (lines 86-138): rejects a missing or empty token, then
(after the scratch-buffer allocation, whose failure also rejects) either
parses the token as a numeric uid and confirms it against the password
database with `getpwuid_r`, or treats it as a login name and resolves it
with `getpwnam_r`.  Returns the resolved uid on success, `none` on any
failure. -/
def lookup_user (db : List PwEntry) (bufOk : Bool) (tok : Option String) : Option Nat :=
  match tok with
  | none => none
  | some s =>
    if s = "" then none
    else if bufOk = false then none
    else
      match scanfU s with
      | some uid =>
        match getpwuid_r db uid with
        | some _ => some uid
        | none => none
      | none =>
        let w := firstWord s
        if w = [] then none
        else
          match getpwnam_r db (String.mk w) with
          | some e => some e.pw_uid
          | none => none

/-! ## Single-mount helper (`mount_fs`, lines 150-159)

The body of `mount_fs` is

    if (umount(target) < 0)

    if (mount(source, target, type, 0, NULL) < 0)
            return -1;

    return 0;

The first `if` has no terminated body, so the entire second `if` statement
is its body: the `mount` call is executed only when the `umount` call
failed.  The embedding keeps that structure exactly and additionally
records whether the `mount` call was reached. -/

/-- Result of one `mount_fs` call: the returned code and whether the
`mount` syscall was actually attempted. -/
structure MountFsResult where
  ret : Int
  mountAttempted : Bool
deriving DecidableEq

/-- `mount_fs` over the oracle results of the two syscalls it can issue
(negative = failure, as in C). -/
def mount_fs (umountRes mountRes : Int) : MountFsResult :=
  if umountRes < 0 then
    if mountRes < 0 then { ret := -1, mountAttempted := true }
    else { ret := 0, mountAttempted := true }
  else { ret := 0, mountAttempted := false }

/-- Oracle results for the syscalls `lxc_setup_fs` can issue: the
`umount`/`mount` pair for each of the three fixed targets.  (The
`access`/`mkdir` calls that precede the shm and mqueue mounts have their
results discarded by the source and do not influence control flow.) -/
structure FsWorld where
  procUmount : Int
  procMount : Int
  shmUmount : Int
  shmMount : Int
  mqUmount : Int
  mqMount : Int
deriving DecidableEq

/-- `lxc_setup_fs` (lines 161-179): issues the three `mount_fs` calls for
`/proc`, `/dev/shm` and `/dev/mqueue` unconditionally in sequence, casting
every result to void.  The function has no failure exit; the embedding
returns the list of targets whose `mount_fs` call reported success, a value
the caller (`do_start`) discards exactly as the C caller does. -/
def lxc_setup_fs (f : FsWorld) : List String :=
  (if (mount_fs f.procUmount f.procMount).ret = 0 then ["/proc"] else []) ++
  (if (mount_fs f.shmUmount f.shmMount).ret = 0 then ["/dev/shm"] else []) ++
  (if (mount_fs f.mqUmount f.mqMount).ret = 0 then ["/dev/mqueue"] else [])

/-! ## Guest bootstrap (`do_start`, lines 181-222) -/

/-- The fields of `struct start_arg` that `do_start` reads (the pointers
are dereferenced once at entry; the embedding carries the values). -/
structure StartArg where
  args : List String
  flags : Flags
  uid : Nat
  setuid : Bool
  want_default_mounts : Bool
  want_hostname : Option String
deriving DecidableEq

/-- Oracle results for the syscalls `do_start` can issue: the eventfd
`read` (the source checks for `-1`), the filesystem-setup syscalls, the
`sethostname` result, the `setuid` result (`setuid(uid)` nonzero means
failure) and whether `execvp` succeeds in replacing the image. -/
structure ChildWorld where
  readRes : Int
  fs : FsWorld
  sethostnameRes : Int
  setuidRes : Int
  execOk : Bool
deriving DecidableEq

/-- Events observable in a launch: the parent's uid-mapping write and
eventfd signal, and the guest's bootstrap stages (the eventfd wait,
the call to `lxc_setup_fs`, the `sethostname` call, the `setuid` call,
the `execvp` call). -/
inductive Ev where
  | writeMap
  | signalGate
  | awaitGate
  | fsSetup
  | setHostname
  | dropId
  | execCmd
deriving DecidableEq

/-- How the guest ends: `_exit(EXIT_FAILURE)` in some bootstrap stage,
a successful `execvp` (the process now runs the target command), or a
failed `execvp` (after which `do_start` returns 1). -/
inductive ChildOutcome where
  | exitFail
  | running
  | execFail
deriving DecidableEq

/-- The sequence of bootstrap events `do_start` performs, in source order
(lines 193-221): the eventfd read first and only when `-u` was given;
then `lxc_setup_fs` when a mount namespace is active and `-M` was given
(its value is discarded, so mount results never end the run); then
`sethostname` when a UTS namespace is active and `-H` was given, fatal on
failure; then `setuid`, fatal on failure; then `execvp`. -/
def childTrace (a : StartArg) (w : ChildWorld) : List Ev :=
  (if a.setuid = true then [Ev.awaitGate] else []) ++
  (if a.setuid = true ∧ w.readRes = -1 then [] else
    (if a.flags.mount = true ∧ a.want_default_mounts = true then [Ev.fsSetup] else []) ++
    (if a.flags.uts = true ∧ a.want_hostname.isSome = true then [Ev.setHostname] else []) ++
    (if a.flags.uts = true ∧ a.want_hostname.isSome = true ∧ w.sethostnameRes < 0 then [] else
      (if a.setuid = true then [Ev.dropId] else []) ++
      (if a.setuid = true ∧ w.setuidRes ≠ 0 then [] else [Ev.execCmd])))

/-- The guest's final state under the same control flow as `childTrace`. -/
def childOutcome (a : StartArg) (w : ChildWorld) : ChildOutcome :=
  if a.setuid = true ∧ w.readRes = -1 then ChildOutcome.exitFail
  else if a.flags.uts = true ∧ a.want_hostname.isSome = true ∧ w.sethostnameRes < 0 then
    ChildOutcome.exitFail
  else if a.setuid = true ∧ w.setuidRes ≠ 0 then ChildOutcome.exitFail
  else if w.execOk = true then ChildOutcome.running
  else ChildOutcome.execFail

/-- `do_start`: the guest's event trace paired with how it ends. -/
def do_start (a : StartArg) (w : ChildWorld) : List Ev × ChildOutcome :=
  (childTrace a w, childOutcome a w)

/-! ## Parent-side orchestration (`main`, lines 224-392) -/

/-- Oracle results for the parent's external calls, in the order `main`
makes them: the invoking user's uid (`getuid()`), `lxc_caps_init`,
`lxc_namespace_2_std_identifiers`, `lxc_fill_namespace_flags`,
`eventfd` (negative = failure), `lxc_clone` (negative = failure, otherwise
the guest's pid), `write_id_mapping`, the eventfd `write`, and the guest's
eventual exit status (consumed by `wait_for_pid`). -/
structure World where
  requesterUid : Nat
  capsOk : Bool
  nsIdOk : Bool
  nsFlagsOk : Bool
  eventfdRes : Int
  cloneRes : Int
  mapWriteOk : Bool
  signalWriteOk : Bool
  guestStatus : Nat
deriving DecidableEq

/-- Observable outcome of one `main` invocation: the process exit code,
whether the run ended inside `usage()` (which prints the option summary
and calls `_exit(EXIT_SUCCESS)`), whether `lxc_clone` was reached and
produced a child, whether the run got past mapping-write and gate-signal
(`launched`), the uid-mapping line written (if any), the argument vectors
the interface-relocation helpers exec, and whether the parent blocked in
its final `wait_for_pid`. -/
structure MainResult where
  exitCode : Nat
  viaUsage : Bool
  childCreated : Bool
  launched : Bool
  mapLine : Option String
  netnsCmds : List (List String)
  waited : Bool
deriving DecidableEq

/-- A bare `exit(code)` before any child exists. -/
def exitRes (code : Nat) : MainResult :=
  { exitCode := code, viaUsage := false, childCreated := false, launched := false,
    mapLine := none, netnsCmds := [], waited := false }

/-- `printf`-style `%d` applied to a `uid_t` (32-bit unsigned) argument,
as in the `snprintf(umap, 100, "%d %d 1\n", ...)` call at line 332: the
value is reinterpreted as a signed 32-bit integer before formatting. -/
def fmtD (u : Nat) : String :=
  let v := u % 2 ^ 32
  if v < 2 ^ 31 then toString v else "-" ++ toString (2 ^ 32 - v)

/-- The uid-mapping line `main` builds at line 332: first the `-u` target
uid, then the invoking user's uid (`getuid()`), then the range length 1. -/
def umapLine (targetUid requesterUid : Nat) : String :=
  fmtD targetUid ++ " " ++ fmtD requesterUid ++ " 1\n"

/-- The argument vector the interface-relocation helper execs
(lines 364-372).  Inside the forked helper the inner `pid` variable —
which shadows the guest's pid — holds `fork`'s return value, and the
`netns` argument is formatted from it with `%d`. -/
def ifaceHelperCmd (pidInChild : Int) (ifname : String) : List String :=
  ["ip", "link", "set", "dev", ifname, "netns", toString pidInChild]

/-- Modelled from the spec: `wait_for_pid` is repository code
(`src/lxc/utils.c`) absent from the sources at hand; only its caller is
present.  Per the spec's exit-code contract (§6: success when the guest's
own successful exit is propagated, failure for propagated guest failure),
the wait utility reports success exactly when the guest exited with
status 0. -/
def wait_for_pid (guestStatus : Nat) : Int :=
  if guestStatus = 0 then 0 else -1

/-- The tail of `main` after a successful clone (and, when `-u` was given,
a successful mapping write and gate signal): fork one relocation helper
per requested interface — each helper formats its `netns` argument from
the inner `pid` variable, which is 0 inside the forked child — then either
exit immediately with `EXIT_SUCCESS` when daemonizing, or block in
`wait_for_pid` and exit `EXIT_SUCCESS`/`EXIT_FAILURE` according to its
result (lines 354-391). -/
def afterClone (r : Request) (w : World) (line : Option String) : MainResult :=
  { exitCode := if r.daemonize = true then 0
                else if wait_for_pid w.guestStatus = 0 then 0 else 1,
    viaUsage := false, childCreated := true, launched := true,
    mapLine := line,
    netnsCmds := r.ifaces.map (fun i => ifaceHelperCmd 0 i),
    waited := if r.daemonize = true then false else true }

/-- `main` after the `getopt` loop (lines 278-392), over an already-parsed
request: missing command check, `lxc_caps_init`, namespace-string
translation (failures go through `usage()`, which exits 0), the three
option/flag precondition checks (each `exit(EXIT_FAILURE)`), `eventfd`
creation when `-u` was given, `lxc_clone`, then — when `-u` was given —
the `snprintf` bound check, `write_id_mapping` and the eventfd signal
(each failure `exit(EXIT_FAILURE)`), and finally the interface helpers,
daemonize and wait handling of `afterClone`. -/
def runMain (r : Request) (w : World) : MainResult :=
  if r.args = [] then exitRes 1
  else if w.capsOk = false then exitRes 1
  else if w.nsIdOk = false then { exitRes 0 with viaUsage := true }
  else if w.nsFlagsOk = false then { exitRes 0 with viaUsage := true }
  else if r.flags.network = false ∧ r.ifaces ≠ [] then exitRes 1
  else if r.flags.uts = false ∧ r.hostname.isSome = true then exitRes 1
  else if r.flags.mount = false ∧ r.defaultMounts = true then exitRes 1
  else if r.setuid = true ∧ w.eventfdRes < 0 then exitRes 1
  else if w.cloneRes < 0 then exitRes 1
  else if r.setuid = true then
    let line := umapLine r.uid w.requesterUid
    if 100 ≤ line.length then { exitRes 1 with childCreated := true }
    else if w.mapWriteOk = false then { exitRes 1 with childCreated := true }
    else if w.signalWriteOk = false then { exitRes 1 with childCreated := true }
    else afterClone r w (some line)
  else afterClone r w none

/-- The `-u` handling inside the `getopt` loop (lines 271-275): when the
option is present, a failed `lookup_user` exits with `EXIT_FAILURE`
immediately; on success `start_arg.setuid` is set and the resolved uid
stored, and `main` continues with the rest of its body. -/
def runMainFromParse (db : List PwEntry) (bufOk : Bool) (uidTok : Option String)
    (base : Request) (w : World) : MainResult :=
  match uidTok with
  | none => runMain base w
  | some tok =>
    match lookup_user db bufOk (some tok) with
    | none => exitRes 1
    | some uid => runMain { base with setuid := true, uid := uid } w

/-! ## Scheduling model for the eventfd gate

The parent (after `lxc_clone`, in the `-u` case) and the guest run as
independently scheduled processes; an execution is an interleaving of the
two event sequences.  The eventfd gives the one ordering constraint: the
guest's blocking `read` can complete only after the parent's `write`, so
every prefix of a schedule that contains the wait already contains the
signal. -/

/-- The parent's post-clone events in the `-u` case (lines 325-352):
write the uid mapping, then signal the eventfd. -/
def parentEvents : List Ev := [Ev.writeMap, Ev.signalGate]

/-- `Shuffle p c tr`: `tr` is an interleaving of the two sequences `p`
and `c`, preserving the internal order of each. -/
inductive Shuffle : List Ev → List Ev → List Ev → Prop where
  | nil : Shuffle [] [] []
  | left {x : Ev} {xs ys zs : List Ev} :
      Shuffle xs ys zs → Shuffle (x :: xs) ys (x :: zs)
  | right {x : Ev} {xs ys zs : List Ev} :
      Shuffle xs ys zs → Shuffle xs (x :: ys) (x :: zs)

/-- The eventfd semantics: the blocking read completes only after the
write, i.e. every schedule prefix containing the gate wait already
contains the gate signal. -/
def GateOk (tr : List Ev) : Prop :=
  ∀ n : Nat, Ev.awaitGate ∈ tr.take n → Ev.signalGate ∈ tr.take n

/-- `Precedes a b tr`: every prefix of the schedule `tr` that contains
`b` already contains `a` — event `a` happens no later than `b`. -/
def Precedes (a b : Ev) (tr : List Ev) : Prop :=
  ∀ n : Nat, b ∈ tr.take n → a ∈ tr.take n

/-! ## Concrete instances used by witnesses and counterexamples -/

/-- No namespace flag set. -/
def noFlags : Flags :=
  { mount := false, pid := false, uts := false, ipc := false, user := false, network := false }

/-- A minimal request: run `/bin/sh` with no options. -/
def baseReq : Request :=
  { args := ["/bin/sh"], flags := noFlags, setuid := false, uid := 0,
    hostname := none, ifaces := [], defaultMounts := false, daemonize := false }

/-- A world in which every external call succeeds: invoking uid 0, all
initialisation calls succeed, `eventfd` returns descriptor 3, `lxc_clone`
returns pid 1234, the mapping write and gate signal succeed, and the guest
eventually exits with status 0. -/
def goodWorld : World :=
  { requesterUid := 0, capsOk := true, nsIdOk := true, nsFlagsOk := true,
    eventfdRes := 3, cloneRes := 1234, mapWriteOk := true, signalWriteOk := true,
    guestStatus := 0 }

/-- Request for the identity-remap run used in several instances: `-s`
selects MOUNT, UTSNAME and USER, `-u 1000`, `-H box`, `-M`. -/
def remapArg : StartArg :=
  { args := ["/bin/sh"], flags := { noFlags with mount := true, uts := true, user := true },
    uid := 1000, setuid := true, want_default_mounts := true, want_hostname := some "box" }

/-- A child-side world in which every guest syscall succeeds. -/
def okChild : ChildWorld :=
  { readRes := 8, fs := ⟨0, 0, 0, 0, 0, 0⟩, sethostnameRes := 0, setuidRes := 0, execOk := true }

/-- One concrete schedule: the parent runs both its events, then the guest
runs all of its bootstrap. -/
def sched : List Ev :=
  [Ev.writeMap, Ev.signalGate, Ev.awaitGate, Ev.fsSetup, Ev.setHostname, Ev.dropId, Ev.execCmd]

/-- `lxc-unshare -u 1000 /bin/sh`: identity remap requested while the flag
set does not include the USER namespace flag. -/
def c1req : Request := { baseReq with setuid := true, uid := 1000 }

/-- `lxc-unshare -s UTSNAME -H box /bin/sh` with the UTS flag cleared:
a hostname request whose UTS precondition is violated. -/
def c1vreq : Request := { baseReq with hostname := some "box" }

/-- `lxc-unshare -s USER -u 1000 /bin/sh`: a successful identity-remap
launch. -/
def c2req : Request :=
  { baseReq with setuid := true, uid := 1000, flags := { noFlags with user := true } }

/-- `lxc-unshare -s NETWORK -i veth0 /bin/sh`: one interface to relocate. -/
def c3req : Request :=
  { baseReq with ifaces := ["veth0"], flags := { noFlags with network := true } }

/-- A world identical to `goodWorld` except that the guest exits with
status 7. -/
def world7 : World := { goodWorld with guestStatus := 7 }

/-- A world in which the namespace-string translation fails, sending
`main` through `usage()`. -/
def worldBadNs : World := { goodWorld with nsIdOk := false }

/-- A child-side world in which every `umount` and every `mount` fails. -/
def failMounts : ChildWorld :=
  { okChild with fs := ⟨-1, -1, -1, -1, -1, -1⟩ }

/-- A one-entry password database: only root. -/
def rootDb : List PwEntry := [{ pw_name := "root", pw_uid := 0 }]

/-- The empty sequence shuffled with `l` is `l`. -/
theorem shuffle_nil_left (l : List Ev) : Shuffle [] l l := by
  induction l with
  | nil => exact Shuffle.nil
  | cons x xs ih => exact Shuffle.right ih

/-- Every prefix of a shuffle is a shuffle of prefixes of the sources. -/
theorem shuffle_take {p c tr : List Ev} (h : Shuffle p c tr) :
    ∀ n : Nat, ∃ i j, Shuffle (p.take i) (c.take j) (tr.take n) := by
  induction h with
  | nil =>
    intro n
    exact ⟨0, 0, by simpa using Shuffle.nil⟩
  | left h ih =>
    intro n
    cases n with
    | zero => exact ⟨0, 0, by simpa using Shuffle.nil⟩
    | succ n =>
      obtain ⟨i, j, hij⟩ := ih n
      exact ⟨i + 1, j, by simpa [List.take_succ_cons] using Shuffle.left hij⟩
  | right h ih =>
    intro n
    cases n with
    | zero => exact ⟨0, 0, by simpa using Shuffle.nil⟩
    | succ n =>
      obtain ⟨i, j, hij⟩ := ih n
      exact ⟨i, j + 1, by simpa [List.take_succ_cons] using Shuffle.right hij⟩

/-- Every element of a shuffle comes from one of the two sources. -/
theorem shuffle_mem {p c tr : List Ev} (h : Shuffle p c tr) {x : Ev}
    (hx : x ∈ tr) : x ∈ p ∨ x ∈ c := by
  induction h with
  | nil => simp at hx
  | left h ih =>
    rcases List.mem_cons.mp hx with heq | htl
    · exact Or.inl (heq ▸ List.mem_cons_self _ _)
    · rcases ih htl with hp | hc
      · exact Or.inl (List.mem_cons_of_mem _ hp)
      · exact Or.inr hc
  | right h ih =>
    rcases List.mem_cons.mp hx with heq | htl
    · exact Or.inr (heq ▸ List.mem_cons_self _ _)
    · rcases ih htl with hp | hc
      · exact Or.inl hp
      · exact Or.inr (List.mem_cons_of_mem _ hc)

/-- Every element of the first source occurs in the shuffle. -/
theorem shuffle_mem_left {p c tr : List Ev} (h : Shuffle p c tr) {x : Ev}
    (hx : x ∈ p) : x ∈ tr := by
  induction h with
  | nil => simp at hx
  | left h ih =>
    rcases List.mem_cons.mp hx with heq | htl
    · exact heq ▸ List.mem_cons_self _ _
    · exact List.mem_cons_of_mem _ (ih htl)
  | right h ih =>
    exact List.mem_cons_of_mem _ (ih hx)

/-- Every element of the second source occurs in the shuffle. -/
theorem shuffle_mem_right {p c tr : List Ev} (h : Shuffle p c tr) {x : Ev}
    (hx : x ∈ c) : x ∈ tr := by
  induction h with
  | nil => simp at hx
  | left h ih =>
    exact List.mem_cons_of_mem _ (ih hx)
  | right h ih =>
    rcases List.mem_cons.mp hx with heq | htl
    · exact heq ▸ List.mem_cons_self _ _
    · exact List.mem_cons_of_mem _ (ih htl)

/-- When `-u` was given, the guest's first event is the gate wait. -/
theorem childTrace_head (a : StartArg) (w : ChildWorld) (h : a.setuid = true) :
    ∃ rest, (do_start a w).1 = Ev.awaitGate :: rest := by
  simp only [do_start, childTrace, h, if_true]
  exact ⟨_, rfl⟩

/-- The guest never performs the parent's two events. -/
theorem childTrace_no_parent_events (a : StartArg) (w : ChildWorld) :
    Ev.writeMap ∉ (do_start a w).1 ∧ Ev.signalGate ∉ (do_start a w).1 := by
  constructor <;>
  · simp only [do_start, childTrace]
    split_ifs <;> simp

/-- A schedule starting with a non-wait event followed directly by the
signal satisfies the gate discipline. -/
theorem gateOk_early_signal (x : Ev) (rest : List Ev) (hx : x ≠ Ev.awaitGate) :
    GateOk (x :: Ev.signalGate :: rest) := by
  intro n hmem
  match n with
  | 0 => simp at hmem
  | 1 =>
    simp only [List.take_succ_cons, List.take_zero, List.mem_singleton] at hmem
    exact absurd hmem.symm hx
  | n + 2 =>
    simp [List.take_succ_cons]

/-! ## Helper lemmas about the orchestrator -/

/-- With the command present, caps and namespace translation succeeding,
and the three precondition checks passing, `main` reaches the post-clone
region. -/
theorem runMain_pastChecks (r : Request) (w : World)
    (ha : r.args ≠ []) (hc : w.capsOk = true)
    (hn1 : w.nsIdOk = true) (hn2 : w.nsFlagsOk = true)
    (h5 : ¬(r.flags.network = false ∧ r.ifaces ≠ []))
    (h6 : ¬(r.flags.uts = false ∧ r.hostname.isSome = true))
    (h7 : ¬(r.flags.mount = false ∧ r.defaultMounts = true))
    (he : ¬(r.setuid = true ∧ w.eventfdRes < 0)) (hcl : ¬ w.cloneRes < 0) :
    runMain r w =
      (if r.setuid = true then
        (if 100 ≤ (umapLine r.uid w.requesterUid).length then
          { exitRes 1 with childCreated := true }
         else if w.mapWriteOk = false then { exitRes 1 with childCreated := true }
         else if w.signalWriteOk = false then { exitRes 1 with childCreated := true }
         else afterClone r w (some (umapLine r.uid w.requesterUid)))
       else afterClone r w none) := by
  simp only [runMain]
  rw [if_neg ha, if_neg (by simp [hc] : ¬(w.capsOk = false)),
      if_neg (by simp [hn1] : ¬(w.nsIdOk = false)),
      if_neg (by simp [hn2] : ¬(w.nsFlagsOk = false)),
      if_neg h5, if_neg h6, if_neg h7, if_neg he, if_neg hcl]

/-- A fully successful `-u` launch ends in `afterClone` with the mapping
line written. -/
theorem runMain_launch_setuid (r : Request) (w : World)
    (ha : r.args ≠ []) (hc : w.capsOk = true)
    (hn1 : w.nsIdOk = true) (hn2 : w.nsFlagsOk = true)
    (h5 : ¬(r.flags.network = false ∧ r.ifaces ≠ []))
    (h6 : ¬(r.flags.uts = false ∧ r.hostname.isSome = true))
    (h7 : ¬(r.flags.mount = false ∧ r.defaultMounts = true))
    (he : ¬ w.eventfdRes < 0) (hcl : ¬ w.cloneRes < 0)
    (hsu : r.setuid = true)
    (hlen : ¬ 100 ≤ (umapLine r.uid w.requesterUid).length)
    (hm : w.mapWriteOk = true) (hs2 : w.signalWriteOk = true) :
    runMain r w = afterClone r w (some (umapLine r.uid w.requesterUid)) := by
  rw [runMain_pastChecks r w ha hc hn1 hn2 h5 h6 h7 (fun hq => he hq.2) hcl,
      if_pos hsu, if_neg hlen, if_neg (by simp [hm] : ¬(w.mapWriteOk = false)),
      if_neg (by simp [hs2] : ¬(w.signalWriteOk = false))]

/-- A successful launch without `-u` ends in `afterClone` with no mapping
line. -/
theorem runMain_launch_nosetuid (r : Request) (w : World)
    (ha : r.args ≠ []) (hc : w.capsOk = true)
    (hn1 : w.nsIdOk = true) (hn2 : w.nsFlagsOk = true)
    (h5 : ¬(r.flags.network = false ∧ r.ifaces ≠ []))
    (h6 : ¬(r.flags.uts = false ∧ r.hostname.isSome = true))
    (h7 : ¬(r.flags.mount = false ∧ r.defaultMounts = true))
    (he : ¬ w.eventfdRes < 0) (hcl : ¬ w.cloneRes < 0)
    (hsu : r.setuid = false) :
    runMain r w = afterClone r w none := by
  rw [runMain_pastChecks r w ha hc hn1 hn2 h5 h6 h7 (fun hq => he hq.2) hcl,
      if_neg (by simp [hsu] : ¬(r.setuid = true))]

/-- The observable fields of the post-clone tail. -/
theorem afterClone_spec (r : Request) (w : World) (line : Option String) :
    (afterClone r w line).exitCode =
      (if r.daemonize = true then 0 else if w.guestStatus = 0 then 0 else 1) ∧
    (afterClone r w line).viaUsage = false ∧
    (afterClone r w line).launched = true ∧
    (afterClone r w line).childCreated = true ∧
    (afterClone r w line).mapLine = line ∧
    (afterClone r w line).waited = (if r.daemonize = true then false else true) ∧
    (afterClone r w line).netnsCmds = r.ifaces.map (fun i => ifaceHelperCmd 0 i) := by
  refine ⟨?_, rfl, rfl, rfl, rfl, rfl, rfl⟩
  simp only [afterClone, wait_for_pid]
  by_cases hg : w.guestStatus = 0
  · simp [hg]
  · simp [hg]

/-! ## Claim theorems -/

/-- `%d` of a `uid_t` value below `2^31` prints the decimal numeral. -/
theorem fmtD_small {u : Nat} (hu : u < 2 ^ 31) : fmtD u = toString u := by
  have h32 : u % 2 ^ 32 = u := Nat.mod_eq_of_lt (lt_of_lt_of_le hu (by norm_num))
  simp only [fmtD]
  rw [h32, if_pos hu]

/-- The mapping line for target and requester uids below `2^31` is the two
numerals and the range length 1. -/
theorem umapLine_small {t q : Nat} (ht : t < 2 ^ 31) (hq : q < 2 ^ 31) :
    umapLine t q = toString t ++ " " ++ toString q ++ " 1\n" := by
  simp only [umapLine]
  rw [fmtD_small ht, fmtD_small hq]

/-- C4 (code bug): when the `umount` at the target succeeds (a
pre-existing mount was removed), the dangling `if` in `mount_fs` swallows
the `mount` call — the new mount is never attempted and the helper still
reports success.  Only when the `umount` fails is the mount attempted, and
only a failed mount yields failure. -/
theorem c4_mount_skipped_on_successful_umount :
    (mount_fs 0 0).mountAttempted = false ∧ (mount_fs 0 0).ret = 0 ∧
    (mount_fs 0 (-1)).mountAttempted = false ∧ (mount_fs 0 (-1)).ret = 0 ∧
    (mount_fs (-1) 0).mountAttempted = true ∧ (mount_fs (-1) 0).ret = 0 ∧
    (mount_fs (-1) (-1)).mountAttempted = true ∧ (mount_fs (-1) (-1)).ret = -1 := by
  decide

/-- C3 (code bug): in the forked relocation helper the inner `pid`
variable — which shadows the guest's pid — holds `fork`'s return value 0,
so the helper execs `ip link set dev veth0 netns 0` even though the guest
was created with pid 1234; the guest's pid never reaches the command. -/
theorem c3_netns_argument_is_not_guest_pid :
    goodWorld.cloneRes = 1234 ∧
    (runMain c3req goodWorld).netnsCmds =
      [["ip", "link", "set", "dev", "veth0", "netns", "0"]] ∧
    (∀ cmd ∈ (runMain c3req goodWorld).netnsCmds, "1234" ∉ cmd) := by
  decide

/-- C1 counterexample: a parsed request asking for an identity remap
(`-u 1000`) whose flag set does not include the USER namespace flag passes
validation — no usage error is raised, the child is created, and the
launch completes successfully. -/
theorem c1_counterexample :
    c1req.setuid = true ∧ c1req.flags.user = false ∧
    (runMain c1req goodWorld).childCreated = true ∧
    (runMain c1req goodWorld).viaUsage = false ∧
    (runMain c1req goodWorld).exitCode = 0 := by
  decide

/-- C1 (amended): a hostname without the UTS flag, an interface list
without the NETWORK flag, or default-mounts without the MOUNT flag makes
the launch fail with exit code 1 before any child process is created; an
identity remap without the USER namespace flag is, however, accepted (the
guest applies `setuid` even without a user namespace). -/
theorem c1_flag_precondition_checks (r : Request) (w : World)
    (hv : (r.flags.network = false ∧ r.ifaces ≠ []) ∨
          (r.flags.uts = false ∧ r.hostname.isSome = true) ∨
          (r.flags.mount = false ∧ r.defaultMounts = true))
    (ha : r.args ≠ []) (hc : w.capsOk = true)
    (hn1 : w.nsIdOk = true) (hn2 : w.nsFlagsOk = true) :
    (runMain r w).childCreated = false ∧ (runMain r w).exitCode = 1 := by
  simp only [runMain]
  rw [if_neg ha, if_neg (by simp [hc] : ¬(w.capsOk = false)),
      if_neg (by simp [hn1] : ¬(w.nsIdOk = false)),
      if_neg (by simp [hn2] : ¬(w.nsFlagsOk = false))]
  by_cases h5 : r.flags.network = false ∧ r.ifaces ≠ []
  · rw [if_pos h5]; exact ⟨rfl, rfl⟩
  · rw [if_neg h5]
    by_cases h6 : r.flags.uts = false ∧ r.hostname.isSome = true
    · rw [if_pos h6]; exact ⟨rfl, rfl⟩
    · rw [if_neg h6]
      by_cases h7 : r.flags.mount = false ∧ r.defaultMounts = true
      · rw [if_pos h7]; exact ⟨rfl, rfl⟩
      · rcases hv with h | h | h
        · exact absurd h h5
        · exact absurd h h6
        · exact absurd h h7

/-- C1 witness: the hostname-without-UTS violation at a concrete request. -/
theorem c1_witness :
    (runMain c1vreq goodWorld).childCreated = false ∧
    (runMain c1vreq goodWorld).exitCode = 1 :=
  c1_flag_precondition_checks c1vreq goodWorld (Or.inr (Or.inl (by decide)))
    (by decide) (by decide) (by decide) (by decide)

/-- C2 counterexample: with requester uid 0 and resolved target uid 1000
the mapping line the parent writes is `1000 0 1` — the target uid is the
inner identifier and the requester uid the outer one — not the
`0 1000 1` (`<requester-uid> <target-uid> 1`) the claim prescribes. -/
theorem c2_counterexample :
    (runMain c2req goodWorld).mapLine = some "1000 0 1\n" ∧
    (runMain c2req goodWorld).mapLine ≠ some "0 1000 1\n" := by
  decide

/-- C2 (amended): on every successful identity-remap launch the mapping
line written is `<target-uid> <requester-uid> 1` — the inner identifier is
the resolved target uid, the outer identifier is the invoking user's uid,
and the range length is 1. -/
theorem c2_map_line (r : Request) (w : World)
    (ha : r.args ≠ []) (hc : w.capsOk = true)
    (hn1 : w.nsIdOk = true) (hn2 : w.nsFlagsOk = true)
    (h5 : ¬(r.flags.network = false ∧ r.ifaces ≠ []))
    (h6 : ¬(r.flags.uts = false ∧ r.hostname.isSome = true))
    (h7 : ¬(r.flags.mount = false ∧ r.defaultMounts = true))
    (hsu : r.setuid = true) (he : ¬ w.eventfdRes < 0) (hcl : ¬ w.cloneRes < 0)
    (hlen : ¬ 100 ≤ (umapLine r.uid w.requesterUid).length)
    (hm : w.mapWriteOk = true) (hs2 : w.signalWriteOk = true)
    (hu : r.uid < 2 ^ 31) (hru : w.requesterUid < 2 ^ 31) :
    (runMain r w).mapLine =
      some (toString r.uid ++ " " ++ toString w.requesterUid ++ " 1\n") := by
  rw [runMain_launch_setuid r w ha hc hn1 hn2 h5 h6 h7 he hcl hsu hlen hm hs2,
      (afterClone_spec r w _).2.2.2.2.1, umapLine_small hu hru]

/-- C2 witness: the amended mapping-line property at target uid 1000 and
requester uid 0. -/
theorem c2_witness :
    (runMain c2req goodWorld).mapLine =
      some (toString c2req.uid ++ " " ++ toString goodWorld.requesterUid ++ " 1\n") :=
  c2_map_line c2req goodWorld (by decide) (by decide) (by decide) (by decide)
    (by decide) (by decide) (by decide) (by decide) (by decide) (by decide)
    (by decide) (by decide) (by decide) (by decide) (by decide)

/-- C5 counterexample: with the guest exiting with status 7 and no detach,
the orchestrator waits but exits with status 1, not 7 — the guest's exit
status is not propagated. -/
theorem c5_counterexample :
    world7.guestStatus = 7 ∧ baseReq.daemonize = false ∧
    (runMain baseReq world7).waited = true ∧
    (runMain baseReq world7).exitCode = 1 ∧
    (runMain baseReq world7).exitCode ≠ 7 := by
  decide

/-- C5 (amended): with the detach flag the orchestrator returns
immediately (no wait on the guest) with exit status 0; without it, the
orchestrator blocks until the guest terminates and exits 0 exactly when
the guest exited 0 and 1 otherwise — the guest's numeric exit status is
collapsed to success/failure, not propagated. -/
theorem c5_detach_and_wait (r : Request) (w : World)
    (ha : r.args ≠ []) (hc : w.capsOk = true)
    (hn1 : w.nsIdOk = true) (hn2 : w.nsFlagsOk = true)
    (h5 : ¬(r.flags.network = false ∧ r.ifaces ≠ []))
    (h6 : ¬(r.flags.uts = false ∧ r.hostname.isSome = true))
    (h7 : ¬(r.flags.mount = false ∧ r.defaultMounts = true))
    (he : ¬ w.eventfdRes < 0) (hcl : ¬ w.cloneRes < 0)
    (hlen : ¬ 100 ≤ (umapLine r.uid w.requesterUid).length)
    (hm : w.mapWriteOk = true) (hs2 : w.signalWriteOk = true) :
    (runMain r w).waited = (if r.daemonize = true then false else true) ∧
    (runMain r w).exitCode =
      (if r.daemonize = true then 0 else if w.guestStatus = 0 then 0 else 1) := by
  by_cases hsu : r.setuid = true
  · rw [runMain_launch_setuid r w ha hc hn1 hn2 h5 h6 h7 he hcl hsu hlen hm hs2]
    exact ⟨(afterClone_spec r w _).2.2.2.2.2.1, (afterClone_spec r w _).1⟩
  · rw [runMain_launch_nosetuid r w ha hc hn1 hn2 h5 h6 h7 he hcl
        (by revert hsu; cases r.setuid <;> simp)]
    exact ⟨(afterClone_spec r w _).2.2.2.2.2.1, (afterClone_spec r w _).1⟩

/-- C5 witness: the amended wait property at a concrete non-detached
request whose guest exits with status 7. -/
theorem c5_witness :
    (runMain baseReq world7).waited = (if baseReq.daemonize = true then false else true) ∧
    (runMain baseReq world7).exitCode =
      (if baseReq.daemonize = true then 0 else if world7.guestStatus = 0 then 0 else 1) :=
  c5_detach_and_wait baseReq world7 (by decide) (by decide) (by decide) (by decide)
    (by decide) (by decide) (by decide) (by decide) (by decide) (by decide)
    (by decide) (by decide)

/-- C6 counterexample: an invocation whose namespace string fails to
translate ends in `usage()`, which prints the usage text and exits with
code 0 — a usage error with exit code 0, and 0 without a guest having run
or a detach having been requested. -/
theorem c6_counterexample :
    worldBadNs.nsIdOk = false ∧
    (runMain baseReq worldBadNs).viaUsage = true ∧
    (runMain baseReq worldBadNs).childCreated = false ∧
    (runMain baseReq worldBadNs).exitCode = 0 := by
  decide

/-- C6 (amended): the exit code is always 0 or 1, and it is 0 exactly
when either the run ended in `usage()` (the `-h` option or a bad namespace
string — these exit 0), or the launch completed and detach was requested
or the guest exited 0.  Every other ending — missing command, caps
failure, precondition violation, eventfd, clone, mapping-write or
gate-signal failure, or guest failure — exits 1. -/
theorem c6_exit_codes (r : Request) (w : World) :
    ((runMain r w).exitCode = 0 ∨ (runMain r w).exitCode = 1) ∧
    ((runMain r w).exitCode = 0 ↔
      ((runMain r w).viaUsage = true ∨
        ((runMain r w).launched = true ∧ (r.daemonize = true ∨ w.guestStatus = 0)))) := by
  have hac : ∀ line : Option String,
      ((afterClone r w line).exitCode = 0 ∨ (afterClone r w line).exitCode = 1) ∧
      ((afterClone r w line).exitCode = 0 ↔
        ((afterClone r w line).viaUsage = true ∨
          ((afterClone r w line).launched = true ∧
            (r.daemonize = true ∨ w.guestStatus = 0)))) := by
    intro line
    obtain ⟨hec, hvu, hla, -, -, -, -⟩ := afterClone_spec r w line
    rw [hec, hvu, hla]
    by_cases hd : r.daemonize = true
    · simp [hd]
    · by_cases hg : w.guestStatus = 0 <;> simp [hd, hg]
  simp only [runMain]
  by_cases h1 : r.args = []
  · rw [if_pos h1]; simp [exitRes]
  rw [if_neg h1]
  by_cases h2 : w.capsOk = false
  · rw [if_pos h2]; simp [exitRes]
  rw [if_neg h2]
  by_cases h3 : w.nsIdOk = false
  · rw [if_pos h3]; simp [exitRes]
  rw [if_neg h3]
  by_cases h4 : w.nsFlagsOk = false
  · rw [if_pos h4]; simp [exitRes]
  rw [if_neg h4]
  by_cases h5 : r.flags.network = false ∧ r.ifaces ≠ []
  · rw [if_pos h5]; simp [exitRes]
  rw [if_neg h5]
  by_cases h6 : r.flags.uts = false ∧ r.hostname.isSome = true
  · rw [if_pos h6]; simp [exitRes]
  rw [if_neg h6]
  by_cases h7 : r.flags.mount = false ∧ r.defaultMounts = true
  · rw [if_pos h7]; simp [exitRes]
  rw [if_neg h7]
  by_cases h8 : r.setuid = true ∧ w.eventfdRes < 0
  · rw [if_pos h8]; simp [exitRes]
  rw [if_neg h8]
  by_cases h9 : w.cloneRes < 0
  · rw [if_pos h9]; simp [exitRes]
  rw [if_neg h9]
  by_cases h10 : r.setuid = true
  · rw [if_pos h10]
    by_cases h11 : 100 ≤ (umapLine r.uid w.requesterUid).length
    · rw [if_pos h11]; simp [exitRes]
    rw [if_neg h11]
    by_cases h12 : w.mapWriteOk = false
    · rw [if_pos h12]; simp [exitRes]
    rw [if_neg h12]
    by_cases h13 : w.signalWriteOk = false
    · rw [if_pos h13]; simp [exitRes]
    rw [if_neg h13]
    exact hac _
  · rw [if_neg h10]
    exact hac _

/-- C7: in every schedule of the parent's post-clone events with the
guest's bootstrap events that respects the eventfd semantics, the
uid-mapping write happens before the guest's Identity-Drop (`setuid`)
step — every schedule prefix containing the drop already contains the
write — and the parent signals the gate exactly once. -/
theorem c7_map_write_before_identity_drop (a : StartArg) (w : ChildWorld)
    (tr : List Ev) (hs : a.setuid = true)
    (hsh : Shuffle parentEvents (do_start a w).1 tr) (hg : GateOk tr) :
    Precedes Ev.writeMap Ev.dropId tr ∧ parentEvents.count Ev.signalGate = 1 := by
  refine ⟨?_, by decide⟩
  intro n hdrop
  obtain ⟨i, j, hij⟩ := shuffle_take hsh n
  rcases shuffle_mem hij hdrop with hp | hc
  · have hmem : Ev.dropId ∈ parentEvents := List.take_subset i parentEvents hp
    simp [parentEvents] at hmem
  · obtain ⟨rest, hhead⟩ := childTrace_head a w hs
    have hawait : Ev.awaitGate ∈ (do_start a w).1.take j := by
      rw [hhead] at hc ⊢
      cases j with
      | zero => simp at hc
      | succ j => simp [List.take_succ_cons]
    have hawait_tr : Ev.awaitGate ∈ tr.take n := shuffle_mem_right hij hawait
    have hsig : Ev.signalGate ∈ tr.take n := hg n hawait_tr
    rcases shuffle_mem hij hsig with hp2 | hc2
    · have hwm : Ev.writeMap ∈ parentEvents.take i := by
        cases i with
        | zero => simp at hp2
        | succ i => simp [parentEvents, List.take_succ_cons]
      exact shuffle_mem_left hij hwm
    · exfalso
      have hin : Ev.signalGate ∈ (do_start a w).1 := List.take_subset j _ hc2
      exact (childTrace_no_parent_events a w).2 hin

/-- C7 witness: the ordering at the concrete schedule in which the parent
runs first. -/
theorem c7_witness :
    Precedes Ev.writeMap Ev.dropId sched ∧ parentEvents.count Ev.signalGate = 1 := by
  have hct : (do_start remapArg okChild).1 =
      [Ev.awaitGate, Ev.fsSetup, Ev.setHostname, Ev.dropId, Ev.execCmd] := by decide
  have hsh : Shuffle parentEvents (do_start remapArg okChild).1 sched := by
    rw [hct]
    exact Shuffle.left (Shuffle.left (shuffle_nil_left _))
  exact c7_map_write_before_identity_drop remapArg okChild sched rfl hsh
    (gateOk_early_signal Ev.writeMap _ (by decide))

/-- C8: with a mount namespace active and default-mounts requested, the
guest's trace and outcome are the same for every combination of
`umount`/`mount` results — no mount failure aborts bootstrap — and the
trace still performs Filesystem-Setup, reaches Hostname-Setup exactly when
a UTS namespace and hostname were requested, reaches Identity-Drop exactly
when `-u` was given, and reaches Exec. -/
theorem c8_mounts_best_effort (a : StartArg) (w : ChildWorld) (f' : FsWorld)
    (hm : a.flags.mount = true) (hd : a.want_default_mounts = true)
    (hr : ¬ (a.setuid = true ∧ w.readRes = -1))
    (hh : ¬ w.sethostnameRes < 0) (hsu : w.setuidRes = 0) :
    do_start a { w with fs := f' } = do_start a w ∧
    Ev.fsSetup ∈ (do_start a w).1 ∧
    (Ev.setHostname ∈ (do_start a w).1 ↔
      (a.flags.uts = true ∧ a.want_hostname.isSome = true)) ∧
    (Ev.dropId ∈ (do_start a w).1 ↔ a.setuid = true) ∧
    Ev.execCmd ∈ (do_start a w).1 := by
  refine ⟨rfl, ?_⟩
  cases hst : a.setuid <;> cases hut : a.flags.uts <;>
    cases hhn : a.want_hostname.isSome <;>
      simp_all [do_start, childTrace, hm, hd]

/-- C8 witness: with every mount syscall failing, the guest bootstrap is
unchanged and still reaches every later stage. -/
theorem c8_witness :
    do_start remapArg { failMounts with fs := ⟨0, 0, 0, 0, 0, 0⟩ } =
      do_start remapArg failMounts ∧
    Ev.fsSetup ∈ (do_start remapArg failMounts).1 ∧
    (Ev.setHostname ∈ (do_start remapArg failMounts).1 ↔
      (remapArg.flags.uts = true ∧ remapArg.want_hostname.isSome = true)) ∧
    (Ev.dropId ∈ (do_start remapArg failMounts).1 ↔ remapArg.setuid = true) ∧
    Ev.execCmd ∈ (do_start remapArg failMounts).1 :=
  c8_mounts_best_effort remapArg failMounts ⟨0, 0, 0, 0, 0, 0⟩
    (by decide) (by decide) (by decide) (by decide) (by decide)

/-- C9: a remap token that parses as a numeric uid is still confirmed
against the password database: when no entry with that uid exists,
`lookup_user` rejects it and `main` exits with status 1 while parsing
options, before any child is created; a missing or empty token is
rejected outright. -/
theorem c9_numeric_uid_needs_pw_entry (db : List PwEntry) (bufOk : Bool)
    (tok : String) (u : Nat) (base : Request) (w : World)
    (hparse : scanfU tok = some u) (hdb : getpwuid_r db u = none) :
    lookup_user db bufOk (some tok) = none ∧
    runMainFromParse db bufOk (some tok) base w = exitRes 1 ∧
    (exitRes 1).childCreated = false ∧
    lookup_user db bufOk none = none ∧
    lookup_user db bufOk (some "") = none := by
  have hne : ¬ tok = "" := by
    intro hteq
    rw [hteq] at hparse
    exact Option.noConfusion ((rfl : scanfU "" = none) ▸ hparse)
  have hlu : lookup_user db bufOk (some tok) = none := by
    simp only [lookup_user]
    rw [if_neg hne]
    by_cases hb : bufOk = false
    · rw [if_pos hb]
    · rw [if_neg hb, hparse]
      simp only [hdb]
  refine ⟨hlu, ?_, rfl, rfl, by simp [lookup_user]⟩
  simp only [runMainFromParse]
  rw [hlu]

/-- C9 witness: the numeric token 4242 against a database holding only
root. -/
theorem c9_witness :
    lookup_user rootDb true (some "4242") = none ∧
    runMainFromParse rootDb true (some "4242") baseReq goodWorld = exitRes 1 ∧
    (exitRes 1).childCreated = false ∧
    lookup_user rootDb true none = none ∧
    lookup_user rootDb true (some "") = none :=
  c9_numeric_uid_needs_pw_entry rootDb true "4242" 4242 baseReq goodWorld
    (by decide) (by decide)

/-- C10: when identity remap is requested the gate wait is the guest's
very first event, and hence in every schedule respecting the eventfd
semantics every guest event — Filesystem-Setup and Hostname-Setup as well
as Identity-Drop and Exec — occurs only after the parent's gate signal. -/
theorem c10_gate_wait_first (a : StartArg) (w : ChildWorld) (tr : List Ev)
    (e : Ev) (hs : a.setuid = true)
    (hsh : Shuffle parentEvents (do_start a w).1 tr) (hg : GateOk tr)
    (he : e ∈ (do_start a w).1) :
    (do_start a w).1.head? = some Ev.awaitGate ∧ Precedes Ev.signalGate e tr := by
  obtain ⟨rest, hhead⟩ := childTrace_head a w hs
  refine ⟨by rw [hhead]; rfl, ?_⟩
  intro n hmem
  obtain ⟨i, j, hij⟩ := shuffle_take hsh n
  rcases shuffle_mem hij hmem with hp | hc
  · have hpe : e ∈ parentEvents := List.take_subset i parentEvents hp
    have hnp := childTrace_no_parent_events a w
    simp only [parentEvents, List.mem_cons, List.not_mem_nil, or_false] at hpe
    rcases hpe with h | h
    · exact absurd (h ▸ he) hnp.1
    · exact absurd (h ▸ he) hnp.2
  · have hawait : Ev.awaitGate ∈ (do_start a w).1.take j := by
      rw [hhead] at hc ⊢
      cases j with
      | zero => simp at hc
      | succ j => simp [List.take_succ_cons]
    exact hg n (shuffle_mem_right hij hawait)

/-- C10 witness: the Filesystem-Setup event of the concrete schedule
comes after the gate signal. -/
theorem c10_witness :
    (do_start remapArg okChild).1.head? = some Ev.awaitGate ∧
    Precedes Ev.signalGate Ev.fsSetup sched := by
  have hct : (do_start remapArg okChild).1 =
      [Ev.awaitGate, Ev.fsSetup, Ev.setHostname, Ev.dropId, Ev.execCmd] := by decide
  have hsh : Shuffle parentEvents (do_start remapArg okChild).1 sched := by
    rw [hct]
    exact Shuffle.left (Shuffle.left (shuffle_nil_left _))
  exact c10_gate_wait_first remapArg okChild sched Ev.fsSetup rfl hsh
    (gateOk_early_signal Ev.writeMap _ (by decide)) (by decide)

end LxcUnshare
